import Mathlib

/-!
Verification of the weather-wise backend (src/backend/app.py).

This file gives a shallow embedding of the backend's core logic — the
forecast normalizer with its mock fallback, the rule-based tip engine, the
focus override engine, and the defensive LLM-output handling — and proves
the specified properties about it.

Conventions of the embedding:
* Python numbers become `ℚ`.
* A dict field that may be absent or `None` becomes `Option`; the idiom
  `d.get(k, default) or default` (which replaces an absent, `None`, or
  falsy value by the default) becomes `pyGetOr`.
* `str.lower()` becomes `pyLower` (character-wise `Char.toLower`, shown
  below to agree with `String.toLower`).
* External effects (the current date, `random`, the weather HTTP call and
  the LLM call) become explicit inputs: an `Env` of date/random draws, a
  `ProviderResult` for the outcome of the weather request, and an
  `Option PyJson` for the outcome of parsing the LLM's response text.
* A Python function that may raise returns `Except`.
-/

/-- Embeds the Python idiom `d.get(key, default) or default` on a numeric
field: an absent key, a `None` value and a zero (falsy) value all yield the
default; any other value passes through. -/
def pyGetOr (v : Option ℚ) (d : ℚ) : ℚ :=
  match v with
  | none => d
  | some x => if x = 0 then d else x

/-- Embeds Python `str.lower()`: lower-case every character. -/
def pyLower (s : String) : String := ⟨s.data.map Char.toLower⟩

/-- `pyLower` agrees with the standard library's `String.toLower`. -/
theorem pyLower_eq_toLower (s : String) : pyLower s = s.toLower :=
  (String.map_eq Char.toLower s).symm

/-- `pyLower` maps the empty string, and only the empty string, to the
empty string (Python truthiness of a string is preserved by `lower()`). -/
theorem pyLower_eq_empty_iff (s : String) : pyLower s = "" ↔ s = "" := by
  unfold pyLower
  constructor
  · intro h
    have h2 : s.data.map Char.toLower = [] := congrArg String.data h
    cases s with
    | mk d =>
      cases d with
      | nil => rfl
      | cons a as => simp at h2
  · intro h
    subst h
    rfl

/-- Embeds Python's substring test `pat in hay` on the underlying character
lists: true iff `pat` occurs contiguously in `hay`. -/
def subListIn (pat : List Char) : List Char → Bool
  | [] => pat.isEmpty
  | a :: as => pat.isPrefixOf (a :: as) || subListIn pat as

/-- Embeds Python `pat in hay` for strings. -/
def strContainsSub (hay pat : String) : Bool := subListIn pat.data hay.data

/-- Round-half-to-even on an integer boundary, as used by Python's built-in
`round`. -/
def roundHalfEven (x : ℚ) : ℤ :=
  let f := ⌊x⌋
  let r := x - f
  if r < 1/2 then f
  else if r > 1/2 then f + 1
  else if f % 2 = 0 then f else f + 1

/-- Embeds Python `round(x, n)` (banker's rounding to `n` decimal places). -/
def pyRound (x : ℚ) (n : ℕ) : ℚ := (roundHalfEven (x * 10 ^ n) : ℚ) / 10 ^ n

/-- Embeds Python `int(x)` (truncation toward zero). -/
def pyInt (x : ℚ) : ℤ := if 0 ≤ x then ⌊x⌋ else ⌈x⌉

/-- The canonical per-day weather record built by the backend
(`app.py`, dict literals at lines 37-49 and 106-116).  Every field may be
absent or `None` when the record is an arbitrary caller-supplied dict, so
each is an `Option`. -/
structure WeatherDay where
  date : Option String
  tempmin : Option ℚ
  tempmax : Option ℚ
  humidity : Option ℚ
  windspeed : Option ℚ
  precip : Option ℚ
  description : Option String
deriving DecidableEq, Inhabited

/-- The random draws `_mock_forecast_3_days` makes for one mock day:
`random.uniform(-5, 5)`, `random.uniform(-5, 10)`, `random.uniform(0, 50)`,
`random.uniform(0, 20)`, `random.uniform(0, 0.5)` and the index picked by
`random.choice` over the five descriptions. -/
structure MockDraws where
  dTempmin : ℚ
  dTempmax : ℚ
  dHumidity : ℚ
  dWind : ℚ
  dPrecip : ℚ
  descIdx : ℕ
deriving DecidableEq, Inhabited

/-- The ambient effects read by the mock generator: the current date
(exposed as `(datetime.now() + timedelta(days=offset)).strftime("%Y-%m-%d")`
per offset) and the stream of random draws, one `MockDraws` per offset. -/
structure Env where
  dateOfOffset : ℕ → String
  draws : ℕ → MockDraws

/-- The fixed description pool of `_mock_forecast_3_days` (app.py line 46). -/
def mockDescriptions : List String :=
  ["Clear skies", "Partly cloudy", "Light rain", "Sunny", "Scattered clouds"]

/-- One mock day as built in the loop body of `_mock_forecast_3_days`
(app.py lines 33-49). -/
def mockDay (env : Env) (offset : ℕ) : WeatherDay :=
  let d := env.draws offset
  let tempmin : ℚ := 60 + d.dTempmin
  let tempmax : ℚ := 75 + d.dTempmax
  { date := some (env.dateOfOffset offset)
    tempmin := some (pyRound tempmin 1)
    tempmax := some (pyRound tempmax 1)
    humidity := some ((pyInt (35 + d.dHumidity) : ℚ))
    windspeed := some (pyRound (5 + d.dWind) 1)
    precip := some (pyRound (max 0 d.dPrecip) 2)
    description := some (mockDescriptions.getD (d.descIdx % 5) "Clear skies") }

/-- Embeds `_mock_forecast_3_days` (app.py lines 31-50): the loop over
offsets `(1, 2, 3)`, unrolled. -/
def _mock_forecast_3_days (env : Env) : List WeatherDay :=
  [mockDay env 1, mockDay env 2, mockDay env 3]

/-- One entry of the provider's `forecast.forecastday` list, restricted to
the fields the backend reads (`fd.get("date")`, `fd.get("day", {})` and its
sub-fields, `day.get("condition", {}).get("text", ...)`).  Absent and
`None` fields are both `none`. -/
structure ProviderDay where
  date : Option String
  mintemp_f : Option ℚ
  maxtemp_f : Option ℚ
  mintemp_c : Option ℚ
  maxtemp_c : Option ℚ
  maxwind_mph : Option ℚ
  totalprecip_in : Option ℚ
  avghumidity : Option ℚ
  condition_text : Option String
deriving DecidableEq, Inhabited

/-- A provider day with every field absent (`fd.get(...)` misses). -/
def emptyProviderDay : ProviderDay :=
  { date := none, mintemp_f := none, maxtemp_f := none, mintemp_c := none,
    maxtemp_c := none, maxwind_mph := none, totalprecip_in := none,
    avghumidity := none, condition_text := none }

/-- The outcome of the single `requests.get` call in `get_weather_forecast`
(app.py lines 74-76): a parsed success body (reduced to the extracted
`forecast.forecastday` list, with a missing key yielding `[]`), an
`HTTPError` raised by `raise_for_status` carrying the response status, or
any other `RequestException` (timeout, DNS, connection refused, body that
fails to parse as JSON). -/
inductive ProviderResult where
  | success (forecastday : List ProviderDay)
  | httpError (status : ℕ)
  | transportError
deriving DecidableEq

/-- The exception `get_weather_forecast` lets escape: the re-raised
`HTTPError` (app.py line 82). -/
inductive FetchError where
  | httpError (status : ℕ)
deriving DecidableEq

/-- The per-day normalization in the loop body of `get_weather_forecast`
(app.py lines 90-116): Fahrenheit temperatures under unit group `"us"`,
Celsius otherwise; windspeed and precip always from the mph/inch fields;
`precip or 0`; description defaulting to `"Clear"`. -/
def normalizeDay (unit_group : String) (fd : ProviderDay) : WeatherDay :=
  let tempmin := if unit_group = "us" then fd.mintemp_f else fd.mintemp_c
  let tempmax := if unit_group = "us" then fd.maxtemp_f else fd.maxtemp_c
  let windspeed := fd.maxwind_mph
  let precip := fd.totalprecip_in
  { date := fd.date
    tempmin := tempmin
    tempmax := tempmax
    humidity := fd.avghumidity
    windspeed := windspeed
    precip := some (pyGetOr precip 0)
    description := some (fd.condition_text.getD "Clear") }

/-- Embeds `get_weather_forecast` (app.py lines 53-117).  `weatherapi_key`
is the `WEATHERAPI_KEY` configuration ("" when unset), `env` supplies the
mock generator's date and randomness, and `provider` is the outcome of the
weather HTTP request.  `location_param` is passed through to the provider
and does not otherwise influence the computation. -/
def get_weather_forecast (weatherapi_key : String) (env : Env)
    (provider : ProviderResult) (location_param : String)
    (unit_group : String) : Except FetchError (List WeatherDay) :=
  if weatherapi_key = "" then Except.ok (_mock_forecast_3_days env)
  else
    match provider with
    | ProviderResult.httpError status =>
        if status = 401 ∨ status = 403 ∨ status = 429 then
          Except.ok (_mock_forecast_3_days env)
        else Except.error (FetchError.httpError status)
    | ProviderResult.transportError => Except.ok (_mock_forecast_3_days env)
    | ProviderResult.success forecast_days =>
        Except.ok (((forecast_days.drop 1).take 3).map (normalizeDay unit_group))

/-- Tip string: irrigation rule, wet branch (app.py line 127). -/
def tipRainSkip : String :=
  "Rain expected — skip sprinklers, save water and pump energy."

/-- Tip string: irrigation rule, dry branch (app.py line 128). -/
def tipDryWater : String :=
  "Dry conditions — water in evening for efficiency."

/-- Tip string: climate rule, hot branch (app.py line 131). -/
def tipHotThermostat : String :=
  "Hot day — set thermostat 3°F higher; use fans to cut A/C use."

/-- Tip string: climate rule, cool branch (app.py line 133). -/
def tipCoolLowerHeat : String :=
  "Cool weather — lower heat by 2°F and wear layers to save energy."

/-- Tip string: climate rule, mild branch (app.py line 135). -/
def tipMildWindows : String :=
  "Mild temps — open windows instead of running HVAC systems."

/-- Tip string: wind rule, windy branch (app.py line 137). -/
def tipHighWinds : String :=
  "High winds — expect good turbine output; delay noisy generator use."

/-- Tip string: wind rule, calm branch (app.py line 138). -/
def tipCalmOffPeak : String :=
  "Calm conditions — run appliances during off-peak hours for savings."

/-- Embeds `get_fallback_tips` (app.py lines 120-140): one tip appended per
rule category — irrigation, climate control, wind — then `tips[:3]`. -/
def get_fallback_tips (day : WeatherDay) : List String :=
  let temp_max := pyGetOr day.tempmax 70
  let precip := pyGetOr day.precip 0
  let wind := pyGetOr day.windspeed 0
  let tips : List String :=
    [if precip > 0.1 then tipRainSkip else tipDryWater] ++
    [if temp_max > 85 then tipHotThermostat
     else if temp_max < 60 then tipCoolLowerHeat
     else tipMildWindows] ++
    [if wind > 15 then tipHighWinds else tipCalmOffPeak]
  tips.take 3

/-- The focus tokens the focus engine recognizes (app.py line 148). -/
def focusRecognized : List String := ["thermostat", "sprinklers", "solar"]

/-- Focus tip string: sprinklers (app.py line 159). -/
def focusTipSprinklers : String :=
  "Rain expected — skip sprinklers tomorrow to save water and energy."

/-- Focus tip string: thermostat (app.py line 161). -/
def focusTipThermostat : String :=
  "Hot day tomorrow — set thermostat ~3°F higher and use fans to save A/C costs."

/-- Focus tip string: solar (app.py line 163). -/
def focusTipSolar : String :=
  "Sunny tomorrow — prioritize solar-powered usage for appliances/EV charging."

/-- The `selected` list computed by `_apply_focus_rules` (app.py lines
146-150): a truthy (non-empty) `focuses` list is lowered and filtered to
the recognized tokens; otherwise a truthy (present, non-empty) single
`focus` is lowered without any recognition check. -/
def selectedFocuses (focus : Option String) (focuses : List String) : List String :=
  if focuses ≠ [] then
    (focuses.map pyLower).filter (fun f => f ∈ focusRecognized)
  else
    match focus with
    | some f => if f ≠ "" then [pyLower f] else []
    | none => []

/-- Embeds `_apply_focus_rules` (app.py lines 143-165).  `tips = tips or []`
is the identity on lists (both `None` and `[]` are modelled by `[]`), so the
parameter is taken as a plain list. -/
def _apply_focus_rules (day : WeatherDay) (focus : Option String)
    (tips : List String) (focuses : List String) : List String :=
  let selected := selectedFocuses focus focuses
  if selected = [] then tips
  else
    let desc := pyLower (day.description.getD "")
    let temp_max := pyGetOr day.tempmax 70
    let precip := pyGetOr day.precip 0
    let preTips : List String :=
      (if "sprinklers" ∈ selected ∧ precip > 0.1 then [focusTipSprinklers] else []) ++
      (if "thermostat" ∈ selected ∧ temp_max > 85 then [focusTipThermostat] else []) ++
      (if "solar" ∈ selected ∧
          (strContainsSub desc "sunny" || strContainsSub desc "clear") = true then
        [focusTipSolar] else [])
    (preTips ++ tips).take 3

/-- A JSON value as produced by Python's `json.loads`: the model for the
parsed LLM response body in `generate_tips_gemini`. -/
inductive PyJson where
  | null
  | bool (b : Bool)
  | num (q : ℚ)
  | str (s : String)
  | arr (xs : List PyJson)
  | obj (kvs : List (String × PyJson))

/-- Embeds Python `str(x)` on a `json.loads` value, as used by the
comprehension `[str(x) for x in out]` (app.py line 200): a string maps to
itself, scalars to their Python spellings, containers to a rendering of
their elements. -/
def pyStr : PyJson → String
  | .null => "None"
  | .bool true => "True"
  | .bool false => "False"
  | .num q => toString q
  | .str s => s
  | .arr xs =>
      "[" ++ String.intercalate ", " (xs.attach.map (fun x => pyStr x.1)) ++ "]"
  | .obj kvs =>
      "\x7b" ++
        String.intercalate ", "
          (kvs.attach.map (fun p => p.1.1 ++ ": " ++ pyStr p.1.2)) ++
      "\x7d"
decreasing_by
  · have := List.sizeOf_lt_of_mem x.2
    simp at *
    omega
  · have h1 := List.sizeOf_lt_of_mem p.2
    obtain ⟨⟨k, v⟩, hm⟩ := p
    simp at *
    omega

/-- The validated suggestion payload of a parsed LLM response: `some xs`
exactly when the parse succeeded with a JSON object whose `"suggestions"`
entry is a list of exactly 3 elements (the acceptance condition of app.py
lines 197-199); `none` in every other case (parse failure, non-object
top level, missing key, non-list value, wrong element count). -/
def llmSuggestions : Option PyJson → Option (List PyJson)
  | some (PyJson.obj kvs) =>
      match List.lookup "suggestions" kvs with
      | some (PyJson.arr xs) => if xs.length = 3 then some xs else none
      | _ => none
  | _ => none

/-- Embeds `generate_tips_gemini` (app.py lines 168-204).  `gemini_api_key`
and `genai_available` are the `GEMINI_API_KEY` / `genai is not None`
configuration; `llm` is the outcome of `model.generate_content` followed by
stripping and `json.loads` on its text — `none` when the call produces no
text or the text fails to parse, `some v` for a parsed JSON value `v`.
A non-object `v` raises `AttributeError` at `data.get`, caught by the
enclosing `except`; a missing `"suggestions"` key or a value that is not a
list of exactly 3 elements falls through the `if`; all of these reach the
fallback at line 204. -/
def generate_tips_gemini (gemini_api_key : String) (genai_available : Bool)
    (llm : Option PyJson) (day : WeatherDay) (focus : Option String)
    (focuses : List String) : List String :=
  if gemini_api_key = "" ∨ genai_available = false then
    _apply_focus_rules day focus (get_fallback_tips day) focuses
  else
    match llm with
    | some (PyJson.obj kvs) =>
        match List.lookup "suggestions" kvs with
        | some (PyJson.arr xs) =>
            if xs.length = 3 then
              _apply_focus_rules day focus (xs.map pyStr) focuses
            else
              _apply_focus_rules day focus (get_fallback_tips day) focuses
        | _ => _apply_focus_rules day focus (get_fallback_tips day) focuses
    | _ => _apply_focus_rules day focus (get_fallback_tips day) focuses

/-! ## Spec-side decompositions used by the theorems -/

/-- The irrigation-category tip of the rule engine, as §4.3 rule 1
describes it. -/
def irrigationTipOf (day : WeatherDay) : String :=
  if pyGetOr day.precip 0 > 0.1 then tipRainSkip else tipDryWater

/-- The climate-control-category tip of the rule engine, as §4.3 rule 2
describes it. -/
def climateTipOf (day : WeatherDay) : String :=
  if pyGetOr day.tempmax 70 > 85 then tipHotThermostat
  else if pyGetOr day.tempmax 70 < 60 then tipCoolLowerHeat
  else tipMildWindows

/-- The wind/appliance-category tip of the rule engine, as §4.3 rule 3
describes it. -/
def windTipOf (day : WeatherDay) : String :=
  if pyGetOr day.windspeed 0 > 15 then tipHighWinds else tipCalmOffPeak

/-- The scenario day of §8: `tempmax=90, precip=0, windspeed=5`. -/
def c8Day : WeatherDay :=
  { date := none, tempmin := none, tempmax := some 90, humidity := none,
    windspeed := some 5, precip := some 0, description := none }

/-- C8: the rule engine returns exactly 3 tips — never fewer — one per rule
category in the fixed order irrigation, climate control, wind/appliance;
and on the scenario day `tempmax=90, precip=0, windspeed=5` it yields, in
order, the dry-conditions watering tip, the hot-day thermostat tip and the
calm-conditions appliance tip. -/
theorem get_fallback_tips_exactly_three :
    (∀ day : WeatherDay,
        get_fallback_tips day =
          [irrigationTipOf day, climateTipOf day, windTipOf day] ∧
        (get_fallback_tips day).length = 3) ∧
    get_fallback_tips c8Day = [tipDryWater, tipHotThermostat, tipCalmOffPeak] := by
  constructor
  · intro day
    constructor
    · simp [get_fallback_tips, irrigationTipOf, climateTipOf, windTipOf]
    · simp [get_fallback_tips]
  · with_unfolding_all decide

/-- A day record whose `tempmax` field is present with the value `0`. -/
def c4Day : WeatherDay :=
  { date := none, tempmin := none, tempmax := some 0, humidity := none,
    windspeed := none, precip := none, description := none }

/-- C4 counterexample: on a day whose `tempmax` is present and equal to `0`
(which is strictly below 60), the climate-control rule produces the mild
"open windows" tip as the second tip, not the "lower heat" tip — because
`day.get("tempmax", 70) or 70` also replaces the falsy value `0` by 70. -/
theorem get_fallback_tips_zero_tempmax_cex :
    c4Day.tempmax = some 0 ∧ (0 : ℚ) < 60 ∧
    (get_fallback_tips c4Day).getD 1 "" = tipMildWindows ∧
    tipMildWindows ≠ tipCoolLowerHeat := by
  with_unfolding_all decide

/-- C4 amended: the rule engine defaults `tempmax` to the neutral value 70
when the field is absent, `None`, or the falsy value `0`; for every day
record whose `tempmax` is present with a nonzero value strictly below 60,
the climate-control rule produces the "lower heat" tip as the second tip. -/
theorem get_fallback_tips_tempmax_default
    (day : WeatherDay) (v : ℚ) :
    ((day.tempmax = none ∨ day.tempmax = some 0) →
        (get_fallback_tips day).getD 1 "" = tipMildWindows) ∧
    (day.tempmax = some v → v ≠ 0 → v < 60 →
        (get_fallback_tips day).getD 1 "" = tipCoolLowerHeat) := by
  constructor
  · intro h
    have hpg : pyGetOr day.tempmax 70 = 70 := by
      rcases h with h | h <;> simp [pyGetOr, h]
    simp only [get_fallback_tips, hpg]
    norm_num
  · intro hv hv0 hlt
    have hpg : pyGetOr day.tempmax 70 = v := by simp [pyGetOr, hv, hv0]
    have h85 : ¬ ((85 : ℚ) < v) := by linarith
    simp only [get_fallback_tips, hpg]
    simp [h85, hlt]

/-- A day record whose `tempmax` field is present with the value `50`. -/
def c4Day50 : WeatherDay :=
  { date := none, tempmin := none, tempmax := some 50, humidity := none,
    windspeed := none, precip := none, description := none }

/-- Witness for the amended C4 at concrete inputs: a falsy `tempmax` of `0`
yields the mild tip, a present nonzero `tempmax` of `50` yields the
"lower heat" tip. -/
theorem get_fallback_tips_tempmax_default_witness :
    (get_fallback_tips c4Day).getD 1 "" = tipMildWindows ∧
    (get_fallback_tips c4Day50).getD 1 "" = tipCoolLowerHeat := by
  refine ⟨(get_fallback_tips_tempmax_default c4Day 0).1 (Or.inr rfl),
          (get_fallback_tips_tempmax_default c4Day50 50).2 rfl ?_ ?_⟩
  · norm_num
  · norm_num

/-- C5 counterexample: a single unrecognized focus string is not a no-op on
an arbitrary base tip list — `selected` becomes the non-empty unrecognized
singleton, no prefix tip triggers, but the final `tips[:3]` still truncates
a 4-element base list, whereas an empty selector returns it unchanged. -/
theorem apply_focus_unrecognized_single_cex :
    _apply_focus_rules c4Day (some "lighting") ["a", "b", "c", "d"] [] =
      ["a", "b", "c"] ∧
    _apply_focus_rules c4Day none ["a", "b", "c", "d"] [] =
      ["a", "b", "c", "d"] ∧
    (["a", "b", "c"] : List String) ≠ ["a", "b", "c", "d"] := by
  with_unfolding_all decide

/-- C5 amended: a `focuses` set containing only unrecognized tokens empties
the selector and behaves exactly as an empty selector (base tips returned
unchanged, whatever the single `focus` argument).  A single unrecognized
focus string contributes no prefix tips but still truncates the base tips
to their first 3 entries; it therefore agrees with the empty selector
exactly on base lists of at most 3 entries. -/
theorem apply_focus_unrecognized_amended
    (day : WeatherDay) (tips : List String) (f : String)
    (focuses : List String) :
    (focuses ≠ [] → (∀ g ∈ focuses, pyLower g ∉ focusRecognized) →
        ∀ fo : Option String, _apply_focus_rules day fo tips focuses = tips) ∧
    (f ≠ "" → pyLower f ∉ focusRecognized →
        _apply_focus_rules day (some f) tips [] = tips.take 3) ∧
    (f ≠ "" → pyLower f ∉ focusRecognized → tips.length ≤ 3 →
        _apply_focus_rules day (some f) tips [] = tips) := by
  have hmain : f ≠ "" → pyLower f ∉ focusRecognized →
      _apply_focus_rules day (some f) tips [] = tips.take 3 := by
    intro hf hnr
    have hsel : selectedFocuses (some f) [] = [pyLower f] := by
      simp [selectedFocuses, hf]
    have h1 : ¬ ("sprinklers" ∈ [pyLower f] ∧ pyGetOr day.precip 0 > 0.1) := by
      rintro ⟨hm, -⟩
      simp only [List.mem_singleton] at hm
      exact hnr (by rw [← hm]; decide)
    have h2 : ¬ ("thermostat" ∈ [pyLower f] ∧ pyGetOr day.tempmax 70 > 85) := by
      rintro ⟨hm, -⟩
      simp only [List.mem_singleton] at hm
      exact hnr (by rw [← hm]; decide)
    have h3 : ¬ ("solar" ∈ [pyLower f] ∧
        (strContainsSub (pyLower (day.description.getD "")) "sunny" ||
         strContainsSub (pyLower (day.description.getD "")) "clear") = true) := by
      rintro ⟨hm, -⟩
      simp only [List.mem_singleton] at hm
      exact hnr (by rw [← hm]; decide)
    simp only [_apply_focus_rules, hsel]
    rw [if_neg (show ¬ (([pyLower f] : List String) = []) from by simp),
        if_neg h1, if_neg h2, if_neg h3]
    simp
  refine ⟨?_, hmain, ?_⟩
  · intro hne hunrec fo
    have hsel : selectedFocuses fo focuses = [] := by
      simp only [selectedFocuses, if_pos hne]
      rw [List.filter_eq_nil_iff]
      intro a ha
      rw [List.mem_map] at ha
      obtain ⟨g, hg, rfl⟩ := ha
      simpa using hunrec g hg
    simp [_apply_focus_rules, hsel]
  · intro hf hnr hlen
    rw [hmain hf hnr]
    exact List.take_of_length_le hlen

/-- Witness for the amended C5 at concrete inputs: the only-unrecognized
`focuses` set `["lighting"]` leaves a 4-element base list unchanged, while
the single unrecognized focus `"lighting"` truncates it, and agrees with
the empty selector on a 3-element base list. -/
theorem apply_focus_unrecognized_amended_witness :
    _apply_focus_rules c4Day (some "solar") ["a", "b", "c", "d"] ["lighting"] =
      ["a", "b", "c", "d"] ∧
    _apply_focus_rules c4Day (some "lighting") ["a", "b", "c", "d"] [] =
      ["a", "b", "c"] ∧
    _apply_focus_rules c4Day (some "lighting") ["a", "b", "c"] [] =
      ["a", "b", "c"] := by
  have h := apply_focus_unrecognized_amended c4Day ["a", "b", "c", "d"]
      "lighting" ["lighting"]
  have h3 := apply_focus_unrecognized_amended c4Day ["a", "b", "c"]
      "lighting" ["lighting"]
  refine ⟨h.1 (by decide) (by decide) (some "solar"), ?_, ?_⟩
  · rw [h.2.1 (by decide) (by decide)]
    decide
  · exact h3.2.2 (by decide) (by decide) (by decide)

/-- The scenario day of §8 for the solar focus: description `"Sunny skies"`,
mild temperatures, no rain, light wind. -/
def c6Day : WeatherDay :=
  { date := none, tempmin := none, tempmax := some 75, humidity := none,
    windspeed := some 5, precip := some 0,
    description := some "Sunny skies" }

/-- C6: with a non-empty focus selector, the focus engine returns the
conditionally-triggered prefix tips followed by the base tips, truncated to
the first 3 entries.  The prefix is a sublist of the fixed evaluation order
sprinklers, thermostat, solar, and each prefix tip is present exactly when
its focus is selected and its weather condition holds — so prefix tips
always displace general tips when the combined length exceeds 3. -/
theorem apply_focus_prefix_structure
    (day : WeatherDay) (focus : Option String) (tips : List String)
    (focuses : List String)
    (hne : selectedFocuses focus focuses ≠ []) :
    ∃ pre : List String,
      _apply_focus_rules day focus tips focuses = (pre ++ tips).take 3 ∧
      List.Sublist pre [focusTipSprinklers, focusTipThermostat, focusTipSolar] ∧
      (focusTipSprinklers ∈ pre ↔
        "sprinklers" ∈ selectedFocuses focus focuses ∧
          pyGetOr day.precip 0 > 0.1) ∧
      (focusTipThermostat ∈ pre ↔
        "thermostat" ∈ selectedFocuses focus focuses ∧
          pyGetOr day.tempmax 70 > 85) ∧
      (focusTipSolar ∈ pre ↔
        "solar" ∈ selectedFocuses focus focuses ∧
          (strContainsSub (pyLower (day.description.getD "")) "sunny" ||
           strContainsSub (pyLower (day.description.getD "")) "clear") = true) := by
  have hd1 : focusTipSprinklers ≠ focusTipThermostat := by decide
  have hd2 : focusTipSprinklers ≠ focusTipSolar := by decide
  have hd3 : focusTipThermostat ≠ focusTipSolar := by decide
  have hd1' : focusTipThermostat ≠ focusTipSprinklers := fun h => hd1 h.symm
  have hd2' : focusTipSolar ≠ focusTipSprinklers := fun h => hd2 h.symm
  have hd3' : focusTipSolar ≠ focusTipThermostat := fun h => hd3 h.symm
  refine ⟨(if "sprinklers" ∈ selectedFocuses focus focuses ∧
              pyGetOr day.precip 0 > 0.1 then [focusTipSprinklers] else []) ++
          (if "thermostat" ∈ selectedFocuses focus focuses ∧
              pyGetOr day.tempmax 70 > 85 then [focusTipThermostat] else []) ++
          (if "solar" ∈ selectedFocuses focus focuses ∧
              (strContainsSub (pyLower (day.description.getD "")) "sunny" ||
               strContainsSub (pyLower (day.description.getD "")) "clear") = true
           then [focusTipSolar] else []), ?_, ?_, ?_, ?_, ?_⟩
  · simp only [_apply_focus_rules]
    rw [if_neg hne]
  · split_ifs <;> simp
  · by_cases hc : "sprinklers" ∈ selectedFocuses focus focuses ∧
        pyGetOr day.precip 0 > 0.1
    · rw [if_pos hc]
      simp [hc]
    · rw [if_neg hc]
      simp only [List.nil_append, List.mem_append, List.mem_singleton]
      constructor
      · intro hm
        exfalso
        rcases hm with hm | hm <;> split_ifs at hm <;> simp_all
      · intro hcc
        exact absurd hcc hc
  · by_cases hc : "thermostat" ∈ selectedFocuses focus focuses ∧
        pyGetOr day.tempmax 70 > 85
    · rw [if_pos hc]
      simp [hc]
    · rw [if_neg hc]
      simp only [List.append_nil, List.nil_append, List.mem_append,
        List.mem_singleton]
      constructor
      · intro hm
        exfalso
        rcases hm with hm | hm <;> split_ifs at hm <;> simp_all
      · intro hcc
        exact absurd hcc hc
  · by_cases hc : "solar" ∈ selectedFocuses focus focuses ∧
        (strContainsSub (pyLower (day.description.getD "")) "sunny" ||
         strContainsSub (pyLower (day.description.getD "")) "clear") = true
    · rw [if_pos hc]
      simp [hc]
    · rw [if_neg hc]
      simp only [List.append_nil, List.nil_append, List.mem_append,
        List.mem_singleton]
      constructor
      · intro hm
        exfalso
        rcases hm with hm | hm <;> split_ifs at hm <;> simp_all
      · intro hcc
        exact absurd hcc hc

/-- Witness for C6 at the §8 scenario: focus `{"solar"}` with description
`"Sunny skies"` and the 3 general tips of `c6Day` — the solar tip is
prepended and the last general tip is dropped. -/
theorem apply_focus_prefix_structure_witness :
    (∃ pre : List String,
      _apply_focus_rules c6Day (some "solar") (get_fallback_tips c6Day) [] =
        (pre ++ get_fallback_tips c6Day).take 3 ∧
      List.Sublist pre [focusTipSprinklers, focusTipThermostat, focusTipSolar] ∧
      (focusTipSprinklers ∈ pre ↔
        "sprinklers" ∈ selectedFocuses (some "solar") [] ∧
          pyGetOr c6Day.precip 0 > 0.1) ∧
      (focusTipThermostat ∈ pre ↔
        "thermostat" ∈ selectedFocuses (some "solar") [] ∧
          pyGetOr c6Day.tempmax 70 > 85) ∧
      (focusTipSolar ∈ pre ↔
        "solar" ∈ selectedFocuses (some "solar") [] ∧
          (strContainsSub (pyLower (c6Day.description.getD "")) "sunny" ||
           strContainsSub (pyLower (c6Day.description.getD "")) "clear") = true)) ∧
    _apply_focus_rules c6Day (some "solar") (get_fallback_tips c6Day) [] =
      [focusTipSolar, tipDryWater, tipMildWindows] := by
  constructor
  · exact apply_focus_prefix_structure c6Day (some "solar")
      (get_fallback_tips c6Day) [] (by decide)
  · with_unfolding_all decide

/-- C9: focus token matching is case-insensitive — the focus engine's
result depends on the `focuses` set and the single `focus` string only
through their lower-cased forms, so inputs such as `"Solar"` or
`"SPRINKLERS"` select the same behavior as their lowercase forms. -/
theorem apply_focus_case_insensitive
    (day : WeatherDay) (tips : List String)
    (f1 f2 : Option String) (fs1 fs2 : List String)
    (hfs : fs1.map pyLower = fs2.map pyLower)
    (hf : f1.map pyLower = f2.map pyLower) :
    _apply_focus_rules day f1 tips fs1 = _apply_focus_rules day f2 tips fs2 := by
  have hsel : selectedFocuses f1 fs1 = selectedFocuses f2 fs2 := by
    unfold selectedFocuses
    by_cases hn : fs1 = []
    · have hn2 : fs2 = [] := by
        subst hn
        simpa using hfs.symm
      subst hn
      subst hn2
      simp only [ne_eq, not_true_eq_false, if_false]
      cases f1 with
      | none =>
        cases f2 with
        | none => rfl
        | some s2 => simp at hf
      | some s1 =>
        cases f2 with
        | none => simp at hf
        | some s2 =>
          simp only [Option.map_some', Option.some_inj] at hf
          by_cases h1 : s1 = ""
          · have h2 : s2 = "" := by
              rw [← pyLower_eq_empty_iff, ← hf, pyLower_eq_empty_iff]
              exact h1
            simp [h1, h2]
          · have h2 : s2 ≠ "" := by
              intro h
              exact h1 (by
                rw [← pyLower_eq_empty_iff, hf, pyLower_eq_empty_iff]
                exact h)
            simp [h1, h2, hf]
    · have hn2 : fs2 ≠ [] := by
        intro h
        subst h
        simp only [List.map_nil, List.map_eq_nil_iff] at hfs
        exact hn hfs
      simp only [ne_eq, hn, hn2, not_false_eq_true, if_true]
      rw [hfs]
  unfold _apply_focus_rules
  rw [hsel]

/-- Witness for C9 at concrete inputs: the mixed-case single focus
`"Solar"` and set `["SPRINKLERS"]` behave as their lowercase forms. -/
theorem apply_focus_case_insensitive_witness :
    _apply_focus_rules c6Day (some "Solar") ["a"] [] =
      _apply_focus_rules c6Day (some "solar") ["a"] [] ∧
    _apply_focus_rules c6Day (some "x") ["a"] ["SPRINKLERS"] =
      _apply_focus_rules c6Day (some "x") ["a"] ["sprinklers"] := by
  constructor
  · exact apply_focus_case_insensitive c6Day ["a"] (some "Solar")
      (some "solar") [] [] (by decide) (by decide)
  · exact apply_focus_case_insensitive c6Day ["a"] (some "x") (some "x")
      ["SPRINKLERS"] ["sprinklers"] (by decide) (by decide)

/-- C10: when the `focuses` set is non-empty (truthy), the single `focus`
string is never consulted; and when additionally every token in `focuses`
is unrecognized, the selector is empty and the base tips come back
unchanged — even if the ignored single focus is recognized. -/
theorem apply_focus_focuses_precedence
    (day : WeatherDay) (tips : List String) (focus : Option String)
    (focuses : List String) (hne : focuses ≠ []) :
    (∀ fo : Option String,
        _apply_focus_rules day focus tips focuses =
          _apply_focus_rules day fo tips focuses) ∧
    ((∀ g ∈ focuses, pyLower g ∉ focusRecognized) →
        _apply_focus_rules day focus tips focuses = tips) := by
  have hsel : ∀ fo : Option String,
      selectedFocuses fo focuses =
        (focuses.map pyLower).filter (fun f => f ∈ focusRecognized) := by
    intro fo
    simp [selectedFocuses, hne]
  constructor
  · intro fo
    unfold _apply_focus_rules
    rw [hsel focus, hsel fo]
  · intro hunrec
    have hempty : selectedFocuses focus focuses = [] := by
      rw [hsel focus, List.filter_eq_nil_iff]
      intro a ha
      rw [List.mem_map] at ha
      obtain ⟨g, hg, rfl⟩ := ha
      simpa using hunrec g hg
    simp [_apply_focus_rules, hempty]

/-- Witness for C10 at concrete inputs: with `focuses = ["lighting"]`
(non-empty, all-unrecognized) the recognized single focus `"solar"` is
ignored even on a sunny day, and the base tips come back unchanged. -/
theorem apply_focus_focuses_precedence_witness :
    _apply_focus_rules c6Day (some "solar") ["a", "b", "c", "d"] ["lighting"] =
      _apply_focus_rules c6Day none ["a", "b", "c", "d"] ["lighting"] ∧
    _apply_focus_rules c6Day (some "solar") ["a", "b", "c", "d"] ["lighting"] =
      ["a", "b", "c", "d"] := by
  have h := apply_focus_focuses_precedence c6Day ["a", "b", "c", "d"]
      (some "solar") ["lighting"] (by decide)
  exact ⟨h.1 none, h.2 (by decide)⟩

/-- Unfolding of `get_weather_forecast` on a successful provider call. -/
theorem get_weather_forecast_on_success (key : String) (env : Env)
    (fds : List ProviderDay) (loc unit_group : String) :
    get_weather_forecast key env (ProviderResult.success fds) loc unit_group =
      if key = "" then Except.ok (_mock_forecast_3_days env)
      else Except.ok (((fds.drop 1).take 3).map (normalizeDay unit_group)) := rfl

/-- Unfolding of `get_weather_forecast` on an HTTP error. -/
theorem get_weather_forecast_on_httpError (key : String) (env : Env)
    (status : ℕ) (loc unit_group : String) :
    get_weather_forecast key env (ProviderResult.httpError status) loc unit_group =
      if key = "" then Except.ok (_mock_forecast_3_days env)
      else if status = 401 ∨ status = 403 ∨ status = 429 then
        Except.ok (_mock_forecast_3_days env)
      else Except.error (FetchError.httpError status) := rfl

/-- Unfolding of `get_weather_forecast` on a transport-level failure. -/
theorem get_weather_forecast_on_transport (key : String) (env : Env)
    (loc unit_group : String) :
    get_weather_forecast key env ProviderResult.transportError loc unit_group =
      Except.ok (_mock_forecast_3_days env) := by
  unfold get_weather_forecast
  split <;> rfl

/-- C3: whenever the LLM's text output fails structured parsing, lacks the
`"suggestions"` key, or yields a `"suggestions"` value that is not a list
of exactly 3 elements (`llmSuggestions llm = none`), `generate_tips_gemini`
returns exactly the result of applying the focus override engine to the
rule engine's output for the same day and focus — the LLM output is
discarded entirely. -/
theorem generate_tips_gemini_fallback_on_invalid
    (gemini_api_key : String) (genai_available : Bool) (llm : Option PyJson)
    (day : WeatherDay) (focus : Option String) (focuses : List String)
    (hinvalid : llmSuggestions llm = none) :
    generate_tips_gemini gemini_api_key genai_available llm day focus focuses =
      _apply_focus_rules day focus (get_fallback_tips day) focuses := by
  unfold generate_tips_gemini
  split
  · rfl
  · cases llm with
    | none => rfl
    | some j =>
      cases j with
      | obj kvs =>
        simp only [llmSuggestions] at hinvalid
        cases hlk : List.lookup "suggestions" kvs with
        | none => simp [hlk]
        | some v =>
          rw [hlk] at hinvalid
          cases v with
          | arr xs =>
            simp only [] at hinvalid
            by_cases hl : xs.length = 3
            · simp [hl] at hinvalid
            · simp [hlk, hl]
          | obj kvs2 => simp [hlk]
          | null => simp [hlk]
          | bool b => simp [hlk]
          | num q => simp [hlk]
          | str s => simp [hlk]
      | arr xs => rfl
      | null => rfl
      | bool b => rfl
      | num q => rfl
      | str s => rfl

/-- Witness for C3 at a concrete input: a parsed-but-non-object LLM
response (the JSON string `"oops"`) is discarded and the rule-engine plus
focus-engine result comes back. -/
theorem generate_tips_gemini_fallback_on_invalid_witness :
    generate_tips_gemini "key" true (some (PyJson.str "oops")) c6Day
        (some "solar") [] =
      _apply_focus_rules c6Day (some "solar") (get_fallback_tips c6Day) [] :=
  generate_tips_gemini_fallback_on_invalid "key" true
    (some (PyJson.str "oops")) c6Day (some "solar") [] rfl

/-- `l[1:4]` on a list of length at least 4 is exactly the elements at
indices 1, 2 and 3. -/
theorem drop_one_take_three_of_four_le {α : Type} (dflt : α) (l : List α)
    (h : 4 ≤ l.length) :
    (l.drop 1).take 3 = [l.getD 1 dflt, l.getD 2 dflt, l.getD 3 dflt] := by
  rcases l with _ | ⟨a, _ | ⟨b, _ | ⟨c, _ | ⟨d, rest⟩⟩⟩⟩ <;>
    simp_all [List.getD]

/-- C1: whenever `get_weather_forecast` returns a forecast (given the
provider contract that a successful response carries at least 4 forecast
days, today plus 3), that forecast has exactly 3 records; in the
no-credential and fallback paths it is the mock generator's output, whose 3
records carry the dates at offsets 1, 2 and 3 from today (tomorrow and the
following two days, never the current day); and in the provider path with a
credential the records are the normalizations of the provider days at
indices 1-3, skipping index 0 (today). -/
theorem get_weather_forecast_three_days
    (key : String) (env : Env) (provider : ProviderResult)
    (loc unit_group : String)
    (hlen : ∀ fds, provider = ProviderResult.success fds → 4 ≤ fds.length) :
    ∀ days, get_weather_forecast key env provider loc unit_group = Except.ok days →
      days.length = 3 ∧
      (_mock_forecast_3_days env).map WeatherDay.date =
        [some (env.dateOfOffset 1), some (env.dateOfOffset 2),
         some (env.dateOfOffset 3)] ∧
      (key = "" → days = _mock_forecast_3_days env) ∧
      (∀ fds, key ≠ "" → provider = ProviderResult.success fds →
        days = [normalizeDay unit_group (fds.getD 1 emptyProviderDay),
                normalizeDay unit_group (fds.getD 2 emptyProviderDay),
                normalizeDay unit_group (fds.getD 3 emptyProviderDay)]) := by
  intro days hok
  have hdates : (_mock_forecast_3_days env).map WeatherDay.date =
      [some (env.dateOfOffset 1), some (env.dateOfOffset 2),
       some (env.dateOfOffset 3)] := by
    simp [_mock_forecast_3_days, mockDay]
  by_cases hk : key = ""
  · have hd : days = _mock_forecast_3_days env := by
      unfold get_weather_forecast at hok
      rw [if_pos hk] at hok
      injection hok with h
      exact h.symm
    subst hd
    refine ⟨by simp [_mock_forecast_3_days], hdates, fun _ => rfl, ?_⟩
    intro fds hkne _
    exact absurd hk hkne
  · cases provider with
    | success fds =>
      have h4 : 4 ≤ fds.length := hlen fds rfl
      have hsub : (fds.drop 1).take 3 =
          [fds.getD 1 emptyProviderDay, fds.getD 2 emptyProviderDay,
           fds.getD 3 emptyProviderDay] :=
        drop_one_take_three_of_four_le emptyProviderDay fds h4
      rw [get_weather_forecast_on_success, if_neg hk] at hok
      have hd : days = ((fds.drop 1).take 3).map (normalizeDay unit_group) := by
        injection hok with h
        exact h.symm
      subst hd
      refine ⟨by rw [hsub]; simp, hdates, fun h => absurd h hk, ?_⟩
      intro fds2 _ heq
      injection heq with heq2
      subst heq2
      rw [hsub]
      simp
    | httpError status =>
      rw [get_weather_forecast_on_httpError, if_neg hk] at hok
      by_cases hs : status = 401 ∨ status = 403 ∨ status = 429
      · rw [if_pos hs] at hok
        have hd : days = _mock_forecast_3_days env := by
          injection hok with h
          exact h.symm
        subst hd
        refine ⟨by simp [_mock_forecast_3_days], hdates,
          fun h => absurd h hk, ?_⟩
        intro fds hkne heq
        cases heq
      · rw [if_neg hs] at hok
        cases hok
    | transportError =>
      rw [get_weather_forecast_on_transport] at hok
      have hd : days = _mock_forecast_3_days env := by
        injection hok with h
        exact h.symm
      subst hd
      refine ⟨by simp [_mock_forecast_3_days], hdates,
        fun h => absurd h hk, ?_⟩
      intro fds hkne heq
      cases heq

/-- A concrete environment for witnesses: dates are rendered offsets,
draws are all zero. -/
def envW : Env :=
  { dateOfOffset := fun n => Nat.repr n, draws := fun _ => default }

/-- A concrete 4-day provider response for witnesses. -/
def provList4 : List ProviderDay :=
  [emptyProviderDay, emptyProviderDay, emptyProviderDay, emptyProviderDay]

/-- Witness for C1 at a concrete input: with a configured credential and a
4-day provider success, the forecast comes back `ok` with exactly 3
records, the normalizations of provider days 1-3. -/
theorem get_weather_forecast_three_days_witness :
    ∃ days, get_weather_forecast "k" envW (ProviderResult.success provList4)
        "loc" "us" = Except.ok days ∧
      days.length = 3 ∧
      days = [normalizeDay "us" (provList4.getD 1 emptyProviderDay),
              normalizeDay "us" (provList4.getD 2 emptyProviderDay),
              normalizeDay "us" (provList4.getD 3 emptyProviderDay)] := by
  have hlen : ∀ fds, ProviderResult.success provList4 =
      ProviderResult.success fds → 4 ≤ fds.length := by
    intro fds hf
    injection hf with h2
    rw [← h2]
    decide
  have hok : get_weather_forecast "k" envW (ProviderResult.success provList4)
      "loc" "us" =
      Except.ok (((provList4.drop 1).take 3).map (normalizeDay "us")) := rfl
  have h := get_weather_forecast_three_days "k" envW
      (ProviderResult.success provList4) "loc" "us" hlen
      (((provList4.drop 1).take 3).map (normalizeDay "us")) hok
  exact ⟨((provList4.drop 1).take 3).map (normalizeDay "us"), hok, h.1,
    h.2.2.2 provList4 (by decide) rfl⟩

/-- C2: with a weather-provider credential configured, `get_weather_forecast`
raises if and only if the provider call fails with an HTTP error status
outside `{401, 403, 429}`.  Transport-level failures and the statuses 401,
403 and 429 return the mock 3-day forecast without surfacing an error, and
any other HTTP error status propagates as the hard failure carrying that
status. -/
theorem get_weather_forecast_error_iff
    (key : String) (env : Env) (provider : ProviderResult)
    (loc unit_group : String) (hkey : key ≠ "") :
    ((provider = ProviderResult.transportError ∨
      ∃ s, provider = ProviderResult.httpError s ∧
        (s = 401 ∨ s = 403 ∨ s = 429)) →
      get_weather_forecast key env provider loc unit_group =
        Except.ok (_mock_forecast_3_days env)) ∧
    (∀ s, provider = ProviderResult.httpError s →
      ¬(s = 401 ∨ s = 403 ∨ s = 429) →
      get_weather_forecast key env provider loc unit_group =
        Except.error (FetchError.httpError s)) ∧
    ((∃ e, get_weather_forecast key env provider loc unit_group =
        Except.error e) ↔
      ∃ s, provider = ProviderResult.httpError s ∧
        ¬(s = 401 ∨ s = 403 ∨ s = 429)) := by
  refine ⟨?_, ?_, ?_⟩
  · rintro (h | ⟨s, h, hs⟩)
    · subst h
      exact get_weather_forecast_on_transport key env loc unit_group
    · subst h
      rw [get_weather_forecast_on_httpError, if_neg hkey, if_pos hs]
  · intro s h hs
    subst h
    rw [get_weather_forecast_on_httpError, if_neg hkey, if_neg hs]
  · constructor
    · rintro ⟨e, he⟩
      cases provider with
      | success fds =>
        rw [get_weather_forecast_on_success, if_neg hkey] at he
        cases he
      | transportError =>
        rw [get_weather_forecast_on_transport] at he
        cases he
      | httpError s =>
        rw [get_weather_forecast_on_httpError, if_neg hkey] at he
        by_cases hs : s = 401 ∨ s = 403 ∨ s = 429
        · rw [if_pos hs] at he
          cases he
        · exact ⟨s, rfl, hs⟩
    · rintro ⟨s, h, hs⟩
      subst h
      rw [get_weather_forecast_on_httpError, if_neg hkey, if_neg hs]
      exact ⟨FetchError.httpError s, rfl⟩

/-- Witness for C2 at concrete inputs: with a credential, status 500 is a
hard failure carrying 500, while status 429 and a timeout both return the
mock forecast. -/
theorem get_weather_forecast_error_iff_witness :
    get_weather_forecast "k" envW (ProviderResult.httpError 500) "loc" "us" =
      Except.error (FetchError.httpError 500) ∧
    get_weather_forecast "k" envW (ProviderResult.httpError 429) "loc" "us" =
      Except.ok (_mock_forecast_3_days envW) ∧
    get_weather_forecast "k" envW ProviderResult.transportError "loc" "us" =
      Except.ok (_mock_forecast_3_days envW) := by
  have h500 := get_weather_forecast_error_iff "k" envW
      (ProviderResult.httpError 500) "loc" "us" (by decide)
  have h429 := get_weather_forecast_error_iff "k" envW
      (ProviderResult.httpError 429) "loc" "us" (by decide)
  have htr := get_weather_forecast_error_iff "k" envW
      ProviderResult.transportError "loc" "us" (by decide)
  refine ⟨h500.2.1 500 rfl (by decide), ?_, ?_⟩
  · exact h429.1 (Or.inr ⟨429, rfl, by decide⟩)
  · exact htr.1 (Or.inl rfl)

/-- The unit-independent projection of a canonical day record: every field
except the two temperatures. -/
def nonTempFields (d : WeatherDay) :
    Option String × Option ℚ × Option ℚ × Option ℚ × Option String :=
  (d.date, d.humidity, d.windspeed, d.precip, d.description)

/-- C7: for every provider response and location, the canonical records'
windspeed and precip (indeed every field except tempmin/tempmax) are
identical under unit system `"us"` and under any other unit system — both
are always sourced from the provider's mph and inch fields; only the two
temperature fields depend on the selected unit system. -/
theorem get_weather_forecast_wind_precip_unit_invariant
    (key : String) (env : Env) (provider : ProviderResult)
    (loc unit_group : String) :
    Except.map (List.map nonTempFields)
        (get_weather_forecast key env provider loc unit_group) =
      Except.map (List.map nonTempFields)
        (get_weather_forecast key env provider loc "us") := by
  cases provider with
  | success fds =>
    rw [get_weather_forecast_on_success, get_weather_forecast_on_success]
    by_cases hk : key = ""
    · rw [if_pos hk, if_pos hk]
    · rw [if_neg hk, if_neg hk]
      simp only [Except.map, List.map_map]
      have : nonTempFields ∘ normalizeDay unit_group =
          nonTempFields ∘ normalizeDay "us" := by
        funext fd
        simp [normalizeDay, nonTempFields]
      rw [this]
  | httpError status =>
    rw [get_weather_forecast_on_httpError, get_weather_forecast_on_httpError]
  | transportError =>
    rw [get_weather_forecast_on_transport, get_weather_forecast_on_transport]
